import Mathlib

/-!
Shallow embedding of `Orchestrator.run_chat` from
samples/tools/autogenbench/scenarios/GAIA/Templates/Orchestrator/orchestrator.py.

External collaborators (the completion oracle `self.client`, the worker
agents, and `autogen.code_utils.extract_code`) are modelled as parameters
of an `Env` record.  Oracle responses are modelled at the granularity of
their parse outcome: a structured query either yields a schema-conformant
record (`OResp.parsed`, `OResp.guessAnswer`) or fails to parse
(`OResp.parseFail`, mirroring the `json.decoder.JSONDecodeError` handlers);
free-text queries yield `OResp.text`.  Long prompt strings are abbreviated
but keep their data dependencies (task, team, facts, plan, checkpoint
history).  Transient context-log appends that are immediately popped
(prompt append / `create` / pop) are not modelled, since they leave
`orchestrated_messages` unchanged; the appends of lines 447 and 460-464,
which are never popped, are modelled.
-/

set_option maxHeartbeats 1000000
set_option synthInstance.maxHeartbeats 400000

namespace Orch

/-- Worker agent descriptor: name, description, and whether
`isinstance(a._code_execution_config, dict)` holds (execution capable). -/
structure AgentD where
  name : String
  description : String
  execCapable : Bool
  deriving DecidableEq

/-- Parsed structured assessment record (the JSON schema of the turn
queries).  Only the `answer` fields are modelled; the paired `reason`
strings are never read by the orchestrator.  The fast-path response omits
the last two fields in the real JSON; the model keeps them present and the
fast path overwrites them, which is observationally equivalent. -/
structure SData where
  is_request_satisfied : Bool
  is_progress_being_made : Bool
  current_evaluation : Int
  next_speaker : String
  instruction_or_question : Option String
  deriving DecidableEq

/-- Oracle response, at the granularity of its parse outcome for the query
that was issued.  `parseFail` models a `json.decoder.JSONDecodeError`. -/
inductive OResp where
  | text (s : String)
  | parsed (d : SData)
  | guessAnswer (b : Bool)
  | parseFail
  deriving DecidableEq

/-- Kind of oracle query issued via `self.client.create`, identified by
call site.  `assess3` is the fast-path query that requests only
satisfaction, progress and evaluation (lines 197-224); `assess5`
additionally requests next speaker and instruction (lines 251-292, with a
second issue at line 349). -/
inductive QueryKind where
  | surveyFacts
  | draftPlan
  | assess3
  | assess5
  | revisePlan
  | educatedGuess
  | rewriteFacts
  | fullReplan
  deriving DecidableEq

/-- Observable external interaction of the orchestrator.  A `send` is one
delivery of `self._broadcast`; `visible` is the negation of the `silent`
flag of `self.send`. -/
inductive Event where
  | oracleQuery (k : QueryKind)
  | send (dest : String) (visible : Bool) (content : String)
  | resetAgent (a : String)
  | requestReply (a : String)
  | workerEcho (a : String)
  deriving DecidableEq

/-- Checkpoint record (`save_checkpoint`, lines 65-71). -/
structure Checkpoint where
  plan : String
  evaluation : Int
  response : Option String
  deriving DecidableEq

/-- Message record kept in `self.orchestrated_messages`. -/
structure Msg where
  role : String
  content : String
  name : String
  deriving DecidableEq

/-- Environment: run inputs and external collaborators. -/
structure Env where
  selfName : String
  senderName : String
  task : String
  agents : List AgentD
  hasClient : Bool
  /-- Modelled from the spec: `autogen.code_utils.extract_code` is external
  to this repository; the model keeps only whether the previous message
  contains a code block tagged `python` or `sh` (lines 192-193). -/
  hasCode : String → Bool
  oracle : Nat → OResp
  /-- Modelled from the spec: a worker agent is an opaque capability that
  produces a reply given prior context (`a.generate_reply`, line 489). -/
  reply : String → String

/-- Mutable orchestrator state during one `run_chat` call.  `egPrompt`
models the Python local `educated_guess_promt`, which is unbound (`none`)
until its only assignment site (line 399, guarded by
`times_stalled >= 2`) has executed. -/
structure OState where
  total_turns : Nat
  times_stalled : Nat
  stalled_count : Int
  facts : String
  plan : String
  checkpoints : List Checkpoint
  orchestrated_messages : List Msg
  egPrompt : Option String
  oracleIdx : Nat
  events : List Event
  deriving DecidableEq

/-- The configured turn cap (`max_turns = 30`, line 159). -/
def max_turns : Nat := 30

def execAgents (env : Env) : List AgentD :=
  env.agents.filter (·.execCapable)

/-- Team roster string (line 95). -/
def teamStr (env : Env) : String :=
  String.intercalate "\n" (env.agents.map (fun a => a.name ++ ": " ++ a.description))

/-- Content of `self.orchestrated_messages[-1]` (line 192); the round
initialization guarantees the list is nonempty. -/
def lastContent (s : OState) : String :=
  match s.orchestrated_messages.getLast? with
  | some m => m.content
  | none => ""

def addEvent (s : OState) (e : Event) : OState :=
  { s with events := s.events ++ [e] }

def addEvents (s : OState) (es : List Event) : OState :=
  { s with events := s.events ++ es }

/-- One `self.client.create` call: consumes the next oracle response and
logs the query event. -/
def askOracle (env : Env) (s : OState) (k : QueryKind) : OResp × OState :=
  (env.oracle s.oracleIdx,
   { s with oracleIdx := s.oracleIdx + 1, events := s.events ++ [Event.oracleQuery k] })

def asText : OResp → String
  | .text t => t
  | _ => ""

/-- Parse of a structured turn response; `none` is the
`json.decoder.JSONDecodeError` case. -/
def asStruct : OResp → Option SData
  | .parsed d => some d
  | _ => none

/-- Parse of the educated-guess response. -/
def asGuess : OResp → Option Bool
  | .guessAnswer b => some b
  | _ => none

/-- Model of `self._broadcast` (lines 54-63): one send per agent, visible
exactly when the agent is listed in `out_loud`, skipped when listed in
`exclude`. -/
def broadcastEvs (agents : List AgentD) (content : String)
    (outLoud exclude : List String) : List Event :=
  agents.filterMap fun a =>
    if exclude.contains a.name then none
    else some (.send a.name (outLoud.contains a.name) content)

/-- The dispatch condition of line 196. -/
def takesFastPath (env : Env) (s : OState) : Bool :=
  env.hasCode (lastContent s) && !(execAgents env).isEmpty

/-- Python `self._checkpoints[-3:]` on the evaluations (line 393). -/
def last3 (l : List Int) : List Int := l.drop (l.length - 3)

/-- Python `all(e >= last_evaluations[i+1] for i, e in enumerate(...))`
(line 394): every element is at least its successor. -/
def allGE : List Int → Bool
  | a :: b :: rest => decide (b ≤ a) && allGE (b :: rest)
  | _ => true

/-- Stagnation test of lines 391-394, on the checkpoint list as it stands
after this turn's save. -/
def stagnationHit (cps : List Checkpoint) : Bool :=
  decide (3 ≤ cps.length) && allGE (last3 (cps.map (·.evaluation)))

/-- The keep-the-better-candidate step (lines 368-371). -/
def keepBest (data data2 : SData) (plan newPlan : String) : SData × String :=
  if data2.current_evaluation > data.current_evaluation then (data2, newPlan)
  else (data, plan)

/-- Round briefing (lines 168-183; boilerplate wording abbreviated, data
dependencies kept). -/
def briefing (env : Env) (s : OState) : String :=
  "We are working to address the following user request:\n\n" ++ env.task ++
  "\n\nTo answer this request we have assembled the following team:\n\n" ++ teamStr env ++
  "\n\nSome additional points to consider:\n\n" ++ s.facts ++ "\n\n" ++ s.plan

/-- Educated-guess prompt (lines 399-413; JSON schema boilerplate elided). -/
def eduGuessPrompt (facts : String) : String :=
  "Given the following information\n\n" ++ facts ++
  "\n\nDo you have two or more congruent pieces of information that will allow you to make an educated guess for the original request?"

/-- Full-history re-plan prompt (lines 455-459). -/
def replanPrompt (cps : List Checkpoint) (team : String) : String :=
  "We have noticed a lack of progress in our last three evaluations.\n" ++
  String.join (cps.enum.map (fun p =>
    "Plan " ++ toString (p.1 + 1) ++ ": " ++ p.2.plan ++ ", Evaluation: " ++
    toString p.2.evaluation ++ ", Insights: " ++ (p.2.response.getD "None") ++ "\n")) ++
  "\nPlease develop a new plan expressed in bullet points.\n\nTeam membership:\n" ++ team ++ "\n"

/-- Control outcome of one inner-loop body (one turn).  `crash` models an
uncaught Python exception. -/
inductive TOut where
  | cont
  | restartRound
  | term (flag : Bool) (msg : Option String)
  | crash (err : String)
  deriving DecidableEq

/-- Result of one turn.  `saved` is the value of the `data` variable at the
checkpoint save (line 374); `none` when the turn aborted before it. -/
structure TurnRes where
  out : TOut
  s : OState
  saved : Option SData
  deriving DecidableEq

/-- Fast path (lines 196-249): issue the three-field query, then inject the
next speaker (first execution-capable agent) and the fixed instruction. -/
def doFastPath (env : Env) (s : OState) : Option SData × OState :=
  let q := askOracle env s .assess3
  match asStruct q.1 with
  | none => (none, q.2)
  | some d =>
      (some { d with
                next_speaker := ((execAgents env).head?.map AgentD.name).getD "",
                instruction_or_question := some "Please execute the above script." }, q.2)

/-- Normal path (lines 250-371): first assessment, candidate plan revision
broadcast to the whole team, second assessment, keep the better
candidate. -/
def doNormalPath (env : Env) (s : OState) : Option SData × OState :=
  let q1 := askOracle env s .assess5
  match asStruct q1.1 with
  | none => (none, q1.2)
  | some d =>
      let q2 := askOracle env q1.2 .revisePlan
      let newPlan := asText q2.1
      let s3 := addEvents q2.2
        (broadcastEvs env.agents ("New Updated Plan: \n" ++ newPlan) [] [])
      let q3 := askOracle env s3 .assess5
      match asStruct q3.1 with
      | none => (none, q3.2)
      | some d2 =>
          let kp := keepBest d d2 q3.2.plan newPlan
          (some kp.1, { q3.2 with plan := kp.2 })

/-- Delegation (lines 487-493): the first agent whose name matches the
chosen next speaker replies; the reply is appended to the context log,
echoed back to the replier, and broadcast to the rest of the team.  When no
agent matches, this is a silent no-op. -/
def delegate (env : Env) (s : OState) (speaker : String) : OState :=
  match env.agents.find? (fun a => a.name == speaker) with
  | none => s
  | some a =>
      let rep := env.reply a.name
      let s1 := addEvent s (.requestReply a.name)
      let s2 := { s1 with orchestrated_messages :=
                    s1.orchestrated_messages ++ [Msg.mk "user" rep a.name] }
      let s3 := addEvent s2 (.workerEcho a.name)
      addEvents s3 (broadcastEvs env.agents rep [] [a.name])

/-- Lines 374-493: checkpoint save, satisfaction check, progress
accounting, stagnation detection, and then either the escalation block or
broadcast plus delegation.  Faithful to the source indentation: the guard
`times_stalled >= 2` (line 397) encloses only the assignment of
`educated_guess_promt`, while lines 414-474 run on every detected
stagnation; reading the unbound local at line 414 is the `crash` case. -/
def afterData (env : Env) (s : OState) (d : SData) : TurnRes :=
  let s1 := { s with checkpoints :=
                s.checkpoints ++ [Checkpoint.mk s.plan d.current_evaluation d.instruction_or_question] }
  if d.is_request_satisfied then ⟨.term true (some "TERMINATE"), s1, some d⟩
  else
    let s2 := { s1 with stalled_count :=
                  if d.is_progress_being_made then max (s1.stalled_count - 1) 0
                  else s1.stalled_count + 1 }
    if stagnationHit s2.checkpoints then
      let ts := s2.times_stalled + 1
      let s3 := { s2 with
                  times_stalled := ts,
                  egPrompt := if 2 ≤ ts then some (eduGuessPrompt s2.facts) else s2.egPrompt }
      match s3.egPrompt with
      | none =>
          ⟨.crash "UnboundLocalError: educated_guess_promt", s3, some d⟩
      | some _ =>
          let q := askOracle env s3 .educatedGuess
          match asGuess q.1 with
          | none => ⟨.restartRound, q.2, some d⟩
          | some g =>
              if g then ⟨.term true (some "TERMINATE"), q.2, some d⟩
              else
                let qf := askOracle env q.2 .rewriteFacts
                let nf := asText qf.1
                let s6 := { qf.2 with
                            facts := nf,
                            orchestrated_messages :=
                              qf.2.orchestrated_messages ++ [Msg.mk "assistant" nf env.selfName] }
                let s7 := { s6 with orchestrated_messages :=
                              s6.orchestrated_messages ++
                                [Msg.mk "user" (replanPrompt s6.checkpoints (teamStr env)) env.senderName] }
                let qp := askOracle env s7 .fullReplan
                ⟨.restartRound, { qp.2 with plan := asText qp.1, checkpoints := [] }, some d⟩
    else
      let instr := d.instruction_or_question.getD ""
      let s3 := addEvents s2 (broadcastEvs env.agents instr [d.next_speaker] [])
      let s4 := { s3 with orchestrated_messages :=
                    s3.orchestrated_messages ++ [Msg.mk "assistant" instr env.selfName] }
      ⟨.cont, delegate env s4 d.next_speaker, some d⟩

/-- One inner-loop body (lines 190-493) after the counter increment. -/
def turnBody (env : Env) (s : OState) : TurnRes :=
  if takesFastPath env s then
    let q := doFastPath env s
    match q.1 with
    | none => ⟨.restartRound, q.2, none⟩
    | some d => afterData env q.2 d
  else
    let q := doNormalPath env s
    match q.1 with
    | none => ⟨.restartRound, q.2, none⟩
    | some d => afterData env q.2 d

/-- One turn: increment `total_turns` (line 190), then run the body. -/
def runTurn (env : Env) (s : OState) : TurnRes :=
  turnBody env { s with total_turns := s.total_turns + 1 }

/-- Round initialization (lines 163-188): reset every worker, rebuild the
context log as a single briefing, broadcast it silently to the team, reset
the round-local stalled counter. -/
def roundInit (env : Env) (s : OState) : OState :=
  let b := briefing env s
  let s1 := addEvents s (env.agents.map (fun a => Event.resetAgent a.name))
  let s2 := { s1 with orchestrated_messages := [Msg.mk "assistant" b env.selfName] }
  let s3 := addEvents s2 (broadcastEvs env.agents b [] [])
  { s3 with stalled_count := 0 }

/-- Final outcome of `run_chat`.  `fuelOut` never occurs for the fuel used
by `runChat`, see `runChat_no_fuelOut`. -/
inductive ROut where
  | ok (flag : Bool) (msg : Option String)
  | crash (err : String)
  | fuelOut
  deriving DecidableEq

structure RunRes where
  result : ROut
  s : OState
  deriving DecidableEq

/-- How one execution of the inner loop hands control back. -/
inductive InnerOut where
  | exited
  | term (flag : Bool) (msg : Option String)
  | crash (err : String)
  | fuelOut
  deriving DecidableEq

/-- Inner turn loop (lines 189-493).  Exits either by its guard turning
false or by a `break` (`restartRound`); both fall back to the outer loop. -/
def innerLoop (env : Env) : Nat → OState → InnerOut × OState
  | 0, s => if s.total_turns < max_turns then (.fuelOut, s) else (.exited, s)
  | Nat.succ f, s =>
    if s.total_turns < max_turns then
      let r := runTurn env s
      match r.out with
      | .cont => innerLoop env f r.s
      | .restartRound => (.exited, r.s)
      | .term b m => (.term b m, r.s)
      | .crash e => (.crash e, r.s)
    else (.exited, s)

/-- Outer round loop (lines 161-495); falling through the guard returns
`True, "TERMINATE"` (line 495). -/
def outerLoop (env : Env) : Nat → OState → RunRes
  | 0, s =>
    if s.total_turns < max_turns then ⟨.fuelOut, s⟩
    else ⟨.ok true (some "TERMINATE"), s⟩
  | Nat.succ f, s =>
    if s.total_turns < max_turns then
      match innerLoop env max_turns (roundInit env s) with
      | (.exited, s2) => outerLoop env f s2
      | (.term b m, s2) => ⟨.ok b m, s2⟩
      | (.crash e, s2) => ⟨.crash e, s2⟩
      | (.fuelOut, s2) => ⟨.fuelOut, s2⟩
    else ⟨.ok true (some "TERMINATE"), s⟩

def initState : OState :=
  { total_turns := 0, times_stalled := 0, stalled_count := 0,
    facts := "", plan := "", checkpoints := [], orchestrated_messages := [],
    egPrompt := none, oracleIdx := 0, events := [] }

/-- Model of `Orchestrator.run_chat` (lines 73-495).  A `None` client
returns `False, None` at once (lines 79-81); otherwise the fact survey and
initial plan are drafted (lines 109-155; their appends go to the local
`_messages` copy, which is dead state and not modelled), then the main
loop runs. -/
def runChat (env : Env) : RunRes :=
  if env.hasClient then
    let q1 := askOracle env initState .surveyFacts
    let s2 := { q1.2 with facts := asText q1.1 }
    let q2 := askOracle env s2 .draftPlan
    let s4 := { q2.2 with plan := asText q2.1 }
    outerLoop env 31 s4
  else ⟨.ok false none, initState⟩

/-!
Named properties and concrete inputs used by the theorems below.
-/

/-- An evaluation score in the documented range. -/
def scoreOK (x : Int) : Prop := 1 ≤ x ∧ x ≤ 100

/-- Every recorded checkpoint carries an in-range score. -/
def cpsInRange (l : List Checkpoint) : Prop := ∀ cp ∈ l, scoreOK cp.evaluation

/-- Every structured response the oracle ever parses carries an in-range
score. -/
def oracleScoresOK (env : Env) : Prop :=
  ∀ n d, env.oracle n = OResp.parsed d → scoreOK d.current_evaluation

/-- Every oracle query recorded in `evs` either was already in `base` or is
one of the kinds in `ks`. -/
def queryWithin (evs base : List Event) (ks : List QueryKind) : Prop :=
  ∀ k, Event.oracleQuery k ∈ evs → Event.oracleQuery k ∈ base ∨ k ∈ ks

/-- No visible (non-silent) delivery occurs in `evs`. -/
def noVisibleSend (evs : List Event) : Prop :=
  ∀ dest c, Event.send dest true c ∉ evs

/-- A worker without execution capability. -/
def solver : AgentD := ⟨"Solver", "solves the task", false⟩

/-- An execution-capable worker. -/
def runner : AgentD := ⟨"Runner", "executes scripts", true⟩

/-- A flat assessment: unsatisfied, no progress, evaluation 50. -/
def dFlat : SData := ⟨false, false, 50, "Solver", some "work on the task"⟩

/-- Oracle giving flat evaluations forever: two bootstrap texts, then per
turn a parsed assessment, a revised-plan text, and a second parsed
assessment. -/
def oracleFlat : Nat → OResp := fun n =>
  if n < 2 then OResp.text "T"
  else if (n - 2) % 3 = 1 then OResp.text "NP"
  else OResp.parsed dFlat

/-- One non-executing worker and the flat oracle. -/
def envFlat : Env :=
  ⟨"Orchestrator", "User", "task", [solver], true, fun _ => false, oracleFlat, fun _ => "reply"⟩

/-- A parsed assessment whose evaluation score is 150, outside [1,100]. -/
def d150 : SData := ⟨true, true, 150, "Solver", some "done"⟩

/-- A run whose first turn parses successfully with score 150 and reports
satisfaction. -/
def env150 : Env :=
  { envFlat with oracle := fun n =>
      if n < 2 then OResp.text "T"
      else if n = 2 then OResp.parsed d150
      else if n = 3 then OResp.text "NP"
      else if n = 4 then OResp.parsed dFlat
      else OResp.parseFail }

/-- Assessments with strictly increasing scores, never satisfied. -/
def dIncAt (n : Nat) : SData := ⟨false, true, Int.ofNat n, "Solver", some "go"⟩

/-- A run that never stagnates and never satisfies: it exhausts the turn
budget. -/
def envInc : Env :=
  { envFlat with oracle := fun n =>
      if n < 2 then OResp.text "T"
      else if (n - 2) % 3 = 1 then OResp.text "NP"
      else OResp.parsed (dIncAt n) }

/-- A mid-run state with two flat checkpoints and one prior stagnation. -/
def sG : OState :=
  { initState with
    checkpoints := [Checkpoint.mk "p" 50 (some "i"), Checkpoint.mk "p" 50 (some "i")],
    times_stalled := 1 }

/-- An oracle whose educated-guess response fails to parse. -/
def envG : Env :=
  { envFlat with oracle := fun n =>
      if n = 0 then OResp.parsed dFlat
      else if n = 1 then OResp.text "NP"
      else if n = 2 then OResp.parsed dFlat
      else OResp.parseFail }

/-- A team with an execution-capable worker and code in the last message. -/
def envR : Env :=
  { envFlat with
    agents := [runner], hasCode := fun _ => true, oracle := fun _ => OResp.parsed dFlat }

/-- A parsed assessment with an in-range score. -/
def d50 : SData := ⟨false, true, 50, "Solver", some "go"⟩

/-- An oracle that always returns `d50`. -/
def envW : Env := { envFlat with oracle := fun _ => OResp.parsed d50 }

/-- A state whose turn budget is already exhausted. -/
def sBudget : OState := { initState with total_turns := 30 }

/-- A satisfied assessment. -/
def dSat : SData := ⟨true, true, 50, "Solver", some "answer"⟩

/-- An assessment naming a speaker that is not on the team. -/
def dGhost : SData := ⟨false, false, 50, "Ghost", some "hello"⟩

/-- An environment with no oracle client. -/
def envNoClient : Env := { envFlat with hasClient := false }

/-- A fast-path environment whose structured response fails to parse. -/
def envRF : Env :=
  { envFlat with
    agents := [runner], hasCode := fun _ => true, oracle := fun _ => OResp.parseFail }

/-- A normal-path environment whose every response fails to parse. -/
def envFF : Env := { envFlat with oracle := fun _ => OResp.parseFail }

/-- A normal-path environment whose second candidate assessment fails to
parse. -/
def env2 : Env :=
  { envFlat with oracle := fun n =>
      if n = 0 then OResp.parsed dFlat
      else if n = 1 then OResp.text "NP"
      else OResp.parseFail }

/-- An oracle answering the educated-guess query with `false`. -/
def envGF : Env :=
  { envFlat with oracle := fun n =>
      if n = 0 then OResp.guessAnswer false else OResp.text "X" }

/-- First candidate assessment, score 40. -/
def dA : SData := ⟨false, true, 40, "Solver", some "first"⟩

/-- Second candidate assessment, score 60. -/
def dB : SData := ⟨false, true, 60, "Solver", some "second"⟩

/-- An oracle whose second candidate outscores the first. -/
def envKB : Env :=
  { envFlat with oracle := fun n =>
      if n = 0 then OResp.parsed dA
      else if n = 1 then OResp.text "np2"
      else OResp.parsed dB }

/-!
Supporting lemmas: characterizations of each phase of a turn, used by the
claim theorems below.
-/

theorem takesFastPath_tt (env : Env) (s : OState) (n : Nat) :
    takesFastPath env { s with total_turns := n } = takesFastPath env s := rfl

theorem doFastPath_2 (env : Env) (s : OState) :
    (doFastPath env s).2 =
      { s with oracleIdx := s.oracleIdx + 1,
               events := s.events ++ [Event.oracleQuery QueryKind.assess3] } := by
  unfold doFastPath askOracle
  dsimp only
  cases asStruct (env.oracle s.oracleIdx) <;> rfl

theorem doFastPath_1_none (env : Env) (s : OState)
    (h : asStruct (env.oracle s.oracleIdx) = none) :
    (doFastPath env s).1 = none := by
  unfold doFastPath askOracle
  dsimp only
  rw [h]

theorem doFastPath_1_some (env : Env) (s : OState) (d : SData)
    (h : asStruct (env.oracle s.oracleIdx) = some d) :
    (doFastPath env s).1 =
      some { d with next_speaker := ((execAgents env).head?.map AgentD.name).getD "",
                    instruction_or_question := some "Please execute the above script." } := by
  unfold doFastPath askOracle
  dsimp only
  rw [h]

theorem doNormalPath_none1 (env : Env) (s : OState)
    (h : asStruct (env.oracle s.oracleIdx) = none) :
    doNormalPath env s =
      (none, { s with oracleIdx := s.oracleIdx + 1,
                      events := s.events ++ [Event.oracleQuery QueryKind.assess5] }) := by
  unfold doNormalPath askOracle
  dsimp only
  rw [h]

theorem doNormalPath_none2 (env : Env) (s : OState) (d : SData)
    (h1 : asStruct (env.oracle s.oracleIdx) = some d)
    (h3 : asStruct (env.oracle (s.oracleIdx + 1 + 1)) = none) :
    doNormalPath env s =
      (none, { s with oracleIdx := s.oracleIdx + 1 + 1 + 1,
                      events := s.events ++ [Event.oracleQuery QueryKind.assess5] ++
                        [Event.oracleQuery QueryKind.revisePlan] ++
                        broadcastEvs env.agents
                          ("New Updated Plan: \n" ++ asText (env.oracle (s.oracleIdx + 1))) [] [] ++
                        [Event.oracleQuery QueryKind.assess5] }) := by
  unfold doNormalPath askOracle addEvents
  dsimp only
  rw [h1]
  dsimp only
  rw [h3]

theorem doNormalPath_some (env : Env) (s : OState) (d d2 : SData)
    (h1 : asStruct (env.oracle s.oracleIdx) = some d)
    (h3 : asStruct (env.oracle (s.oracleIdx + 1 + 1)) = some d2) :
    doNormalPath env s =
      (some (keepBest d d2 s.plan (asText (env.oracle (s.oracleIdx + 1)))).1,
       { s with plan := (keepBest d d2 s.plan (asText (env.oracle (s.oracleIdx + 1)))).2,
                oracleIdx := s.oracleIdx + 1 + 1 + 1,
                events := s.events ++ [Event.oracleQuery QueryKind.assess5] ++
                  [Event.oracleQuery QueryKind.revisePlan] ++
                  broadcastEvs env.agents
                    ("New Updated Plan: \n" ++ asText (env.oracle (s.oracleIdx + 1))) [] [] ++
                  [Event.oracleQuery QueryKind.assess5] }) := by
  unfold doNormalPath askOracle addEvents
  dsimp only
  rw [h1]
  dsimp only
  rw [h3]

theorem broadcastEvs_no_query (ag : List AgentD) (c : String) (ol ex : List String)
    (k : QueryKind) : Event.oracleQuery k ∉ broadcastEvs ag c ol ex := by
  simp only [broadcastEvs, List.mem_filterMap]
  rintro ⟨a, _, h⟩
  split at h <;> simp_all

theorem broadcastEvs_mem (ag : List AgentD) (c : String) (ol ex : List String)
    (e : Event) (h : e ∈ broadcastEvs ag c ol ex) :
    ∃ a ∈ ag, e = Event.send a.name (ol.contains a.name) c := by
  simp only [broadcastEvs, List.mem_filterMap] at h
  rcases h with ⟨a, ha, hh⟩
  split at hh
  · simp_all
  · exact ⟨a, ha, (Option.some.inj hh).symm⟩

theorem delegate_not_found (env : Env) (s : OState) (sp : String)
    (h : env.agents.find? (fun a => a.name == sp) = none) :
    delegate env s sp = s := by
  unfold delegate
  rw [h]

theorem delegate_turns (env : Env) (s : OState) (sp : String) :
    (delegate env s sp).total_turns = s.total_turns := by
  unfold delegate addEvent addEvents
  split <;> rfl

theorem delegate_ts (env : Env) (s : OState) (sp : String) :
    (delegate env s sp).times_stalled = s.times_stalled := by
  unfold delegate addEvent addEvents
  split <;> rfl

theorem delegate_cps (env : Env) (s : OState) (sp : String) :
    (delegate env s sp).checkpoints = s.checkpoints := by
  unfold delegate addEvent addEvents
  split <;> rfl

theorem delegate_plan (env : Env) (s : OState) (sp : String) :
    (delegate env s sp).plan = s.plan := by
  unfold delegate addEvent addEvents
  split <;> rfl

theorem delegate_queries (env : Env) (s : OState) (sp : String) (k : QueryKind)
    (h : Event.oracleQuery k ∈ (delegate env s sp).events) :
    Event.oracleQuery k ∈ s.events := by
  unfold delegate addEvent addEvents at h
  split at h
  · exact h
  · simp only [List.mem_append, List.mem_singleton] at h
    rcases h with ((h | h) | h) | h
    · exact h
    · simp_all
    · simp_all
    · exact absurd h (broadcastEvs_no_query _ _ _ _ _)

theorem afterData_sat (env : Env) (s : OState) (d : SData)
    (h : d.is_request_satisfied = true) :
    afterData env s d =
      ⟨.term true (some "TERMINATE"),
       { s with checkpoints := s.checkpoints ++
           [Checkpoint.mk s.plan d.current_evaluation d.instruction_or_question] },
       some d⟩ := by
  unfold afterData
  split
  · rfl
  · simp_all

theorem afterData_noStag (env : Env) (s : OState) (d : SData)
    (hsat : d.is_request_satisfied = false)
    (hst : stagnationHit (s.checkpoints ++
      [Checkpoint.mk s.plan d.current_evaluation d.instruction_or_question]) = false) :
    afterData env s d =
      ⟨.cont,
       delegate env
         { s with
           checkpoints := s.checkpoints ++
             [Checkpoint.mk s.plan d.current_evaluation d.instruction_or_question],
           stalled_count := if d.is_progress_being_made then max (s.stalled_count - 1) 0
                            else s.stalled_count + 1,
           events := s.events ++
             broadcastEvs env.agents (d.instruction_or_question.getD "") [d.next_speaker] [],
           orchestrated_messages := s.orchestrated_messages ++
             [Msg.mk "assistant" (d.instruction_or_question.getD "") env.selfName] }
         d.next_speaker,
       some d⟩ := by
  unfold afterData addEvents
  split
  · simp_all
  · dsimp only
    split
    · simp_all
    · rfl

theorem afterData_crash (env : Env) (s : OState) (d : SData)
    (hsat : d.is_request_satisfied = false)
    (hst : stagnationHit (s.checkpoints ++
      [Checkpoint.mk s.plan d.current_evaluation d.instruction_or_question]) = true)
    (hts : s.times_stalled = 0) (hegp : s.egPrompt = none) :
    afterData env s d =
      ⟨.crash "UnboundLocalError: educated_guess_promt",
       { s with
         checkpoints := s.checkpoints ++
           [Checkpoint.mk s.plan d.current_evaluation d.instruction_or_question],
         stalled_count := if d.is_progress_being_made then max (s.stalled_count - 1) 0
                          else s.stalled_count + 1,
         times_stalled := 1 },
       some d⟩ := by
  unfold afterData
  split
  · simp_all
  · dsimp only
    split
    · rw [hts, hegp]
      rfl
    · simp_all

theorem afterData_guessFail (env : Env) (s : OState) (d : SData)
    (hsat : d.is_request_satisfied = false)
    (hst : stagnationHit (s.checkpoints ++
      [Checkpoint.mk s.plan d.current_evaluation d.instruction_or_question]) = true)
    (hts : 1 ≤ s.times_stalled)
    (hg : asGuess (env.oracle s.oracleIdx) = none) :
    afterData env s d =
      ⟨.restartRound,
       { s with
         checkpoints := s.checkpoints ++
           [Checkpoint.mk s.plan d.current_evaluation d.instruction_or_question],
         stalled_count := if d.is_progress_being_made then max (s.stalled_count - 1) 0
                          else s.stalled_count + 1,
         times_stalled := s.times_stalled + 1,
         egPrompt := some (eduGuessPrompt s.facts),
         oracleIdx := s.oracleIdx + 1,
         events := s.events ++ [Event.oracleQuery QueryKind.educatedGuess] },
       some d⟩ := by
  unfold afterData askOracle
  split
  · simp_all
  · dsimp only
    split
    · rw [if_pos (by omega)]
      dsimp only
      rw [hg]
    · simp_all

theorem afterData_guessTrue (env : Env) (s : OState) (d : SData)
    (hsat : d.is_request_satisfied = false)
    (hst : stagnationHit (s.checkpoints ++
      [Checkpoint.mk s.plan d.current_evaluation d.instruction_or_question]) = true)
    (hts : 1 ≤ s.times_stalled)
    (hg : asGuess (env.oracle s.oracleIdx) = some true) :
    afterData env s d =
      ⟨.term true (some "TERMINATE"),
       { s with
         checkpoints := s.checkpoints ++
           [Checkpoint.mk s.plan d.current_evaluation d.instruction_or_question],
         stalled_count := if d.is_progress_being_made then max (s.stalled_count - 1) 0
                          else s.stalled_count + 1,
         times_stalled := s.times_stalled + 1,
         egPrompt := some (eduGuessPrompt s.facts),
         oracleIdx := s.oracleIdx + 1,
         events := s.events ++ [Event.oracleQuery QueryKind.educatedGuess] },
       some d⟩ := by
  unfold afterData askOracle
  split
  · simp_all
  · dsimp only
    split
    · rw [if_pos (by omega)]
      dsimp only
      rw [hg]
      rfl
    · simp_all

theorem afterData_replan (env : Env) (s : OState) (d : SData)
    (hsat : d.is_request_satisfied = false)
    (hst : stagnationHit (s.checkpoints ++
      [Checkpoint.mk s.plan d.current_evaluation d.instruction_or_question]) = true)
    (hts : 1 ≤ s.times_stalled)
    (hg : asGuess (env.oracle s.oracleIdx) = some false) :
    afterData env s d =
      ⟨.restartRound,
       { s with
         checkpoints := [],
         stalled_count := if d.is_progress_being_made then max (s.stalled_count - 1) 0
                          else s.stalled_count + 1,
         times_stalled := s.times_stalled + 1,
         egPrompt := some (eduGuessPrompt s.facts),
         facts := asText (env.oracle (s.oracleIdx + 1)),
         plan := asText (env.oracle (s.oracleIdx + 1 + 1)),
         oracleIdx := s.oracleIdx + 1 + 1 + 1,
         events := s.events ++ [Event.oracleQuery QueryKind.educatedGuess] ++
           [Event.oracleQuery QueryKind.rewriteFacts] ++ [Event.oracleQuery QueryKind.fullReplan],
         orchestrated_messages := s.orchestrated_messages ++
           [Msg.mk "assistant" (asText (env.oracle (s.oracleIdx + 1))) env.selfName] ++
           [Msg.mk "user"
             (replanPrompt (s.checkpoints ++
               [Checkpoint.mk s.plan d.current_evaluation d.instruction_or_question]) (teamStr env))
             env.senderName] },
       some d⟩ := by
  unfold afterData askOracle
  split
  · simp_all
  · dsimp only
    split
    · rw [if_pos (by omega)]
      dsimp only
      rw [hg]
      rfl
    · simp_all

theorem afterData_saved (env : Env) (s : OState) (d : SData) :
    (afterData env s d).saved = some d := by
  unfold afterData delegate askOracle addEvent addEvents
  dsimp only
  repeat' split
  all_goals rfl

theorem afterData_turns (env : Env) (s : OState) (d : SData) :
    (afterData env s d).s.total_turns = s.total_turns := by
  unfold afterData delegate askOracle addEvent addEvents
  dsimp only
  repeat' split
  all_goals rfl

theorem afterData_ts (env : Env) (s : OState) (d : SData) :
    (afterData env s d).s.times_stalled = s.times_stalled ∨
      (afterData env s d).s.times_stalled = s.times_stalled + 1 := by
  unfold afterData delegate askOracle addEvent addEvents
  dsimp only
  repeat' split
  all_goals simp

theorem afterData_cps (env : Env) (s : OState) (d : SData) :
    (afterData env s d).s.checkpoints =
      s.checkpoints ++ [Checkpoint.mk s.plan d.current_evaluation d.instruction_or_question] ∨
      (afterData env s d).s.checkpoints = [] := by
  unfold afterData delegate askOracle addEvent addEvents
  dsimp only
  repeat' split
  all_goals simp

theorem afterData_queries (env : Env) (s : OState) (d : SData) (k : QueryKind)
    (h : Event.oracleQuery k ∈ (afterData env s d).s.events) :
    Event.oracleQuery k ∈ s.events ∨
      k = QueryKind.educatedGuess ∨ k = QueryKind.rewriteFacts ∨ k = QueryKind.fullReplan := by
  unfold afterData delegate askOracle addEvent addEvents at h
  dsimp only at h
  repeat' split at h
  all_goals
    simp only [List.mem_append, List.mem_singleton, broadcastEvs_no_query,
      Event.oracleQuery.injEq] at h
  all_goals tauto


theorem doFastPath_none (env : Env) (s : OState)
    (h : asStruct (env.oracle s.oracleIdx) = none) :
    doFastPath env s =
      (none, { s with oracleIdx := s.oracleIdx + 1,
                      events := s.events ++ [Event.oracleQuery QueryKind.assess3] }) := by
  unfold doFastPath askOracle
  dsimp only
  rw [h]

theorem doFastPath_some (env : Env) (s : OState) (d : SData)
    (h : asStruct (env.oracle s.oracleIdx) = some d) :
    doFastPath env s =
      (some { d with next_speaker := ((execAgents env).head?.map AgentD.name).getD "",
                     instruction_or_question := some "Please execute the above script." },
       { s with oracleIdx := s.oracleIdx + 1,
                events := s.events ++ [Event.oracleQuery QueryKind.assess3] }) := by
  unfold doFastPath askOracle
  dsimp only
  rw [h]

theorem doNormalPath_2_turns (env : Env) (s : OState) :
    (doNormalPath env s).2.total_turns = s.total_turns := by
  unfold doNormalPath askOracle addEvents
  dsimp only
  repeat' split
  all_goals rfl

theorem doNormalPath_2_ts (env : Env) (s : OState) :
    (doNormalPath env s).2.times_stalled = s.times_stalled := by
  unfold doNormalPath askOracle addEvents
  dsimp only
  repeat' split
  all_goals rfl

theorem doNormalPath_2_cps (env : Env) (s : OState) :
    (doNormalPath env s).2.checkpoints = s.checkpoints := by
  unfold doNormalPath askOracle addEvents
  dsimp only
  repeat' split
  all_goals rfl

theorem doNormalPath_2_facts (env : Env) (s : OState) :
    (doNormalPath env s).2.facts = s.facts := by
  unfold doNormalPath askOracle addEvents
  dsimp only
  repeat' split
  all_goals rfl

theorem doNormalPath_2_egPrompt (env : Env) (s : OState) :
    (doNormalPath env s).2.egPrompt = s.egPrompt := by
  unfold doNormalPath askOracle addEvents
  dsimp only
  repeat' split
  all_goals rfl

theorem doNormalPath_2_msgs (env : Env) (s : OState) :
    (doNormalPath env s).2.orchestrated_messages = s.orchestrated_messages := by
  unfold doNormalPath askOracle addEvents
  dsimp only
  repeat' split
  all_goals rfl

theorem doFastPath_1_eval (env : Env) (s : OState) (dk : SData)
    (h : (doFastPath env s).1 = some dk) :
    ∃ d0, asStruct (env.oracle s.oracleIdx) = some d0 ∧
      dk.current_evaluation = d0.current_evaluation := by
  unfold doFastPath askOracle at h
  dsimp only at h
  cases h0 : asStruct (env.oracle s.oracleIdx) with
  | none => rw [h0] at h; simp at h
  | some d0 =>
      rw [h0] at h
      dsimp only at h
      exact ⟨d0, rfl, by rw [← Option.some.inj h]⟩

theorem doNormalPath_1_eval (env : Env) (s : OState) (dk : SData)
    (h : (doNormalPath env s).1 = some dk) :
    ∃ n d0, asStruct (env.oracle n) = some d0 ∧
      dk.current_evaluation = d0.current_evaluation := by
  unfold doNormalPath askOracle addEvents at h
  dsimp only at h
  cases h1 : asStruct (env.oracle s.oracleIdx) with
  | none => rw [h1] at h; simp at h
  | some d =>
      rw [h1] at h
      dsimp only at h
      cases h3 : asStruct (env.oracle (s.oracleIdx + 1 + 1)) with
      | none => rw [h3] at h; simp at h
      | some d2 =>
          rw [h3] at h
          dsimp only at h
          rw [← Option.some.inj h]
          unfold keepBest
          split
          · exact ⟨s.oracleIdx + 1 + 1, d2, h3, rfl⟩
          · exact ⟨s.oracleIdx, d, h1, rfl⟩

theorem turnBody_fast_none (env : Env) (s : OState)
    (hf : takesFastPath env s = true)
    (h : asStruct (env.oracle s.oracleIdx) = none) :
    turnBody env s =
      ⟨.restartRound,
       { s with oracleIdx := s.oracleIdx + 1,
                events := s.events ++ [Event.oracleQuery QueryKind.assess3] },
       none⟩ := by
  unfold turnBody
  rw [hf, doFastPath_none env s h]
  rfl

theorem turnBody_fast_some (env : Env) (s : OState) (d : SData)
    (hf : takesFastPath env s = true)
    (h : asStruct (env.oracle s.oracleIdx) = some d) :
    turnBody env s =
      afterData env
        { s with oracleIdx := s.oracleIdx + 1,
                 events := s.events ++ [Event.oracleQuery QueryKind.assess3] }
        { d with next_speaker := ((execAgents env).head?.map AgentD.name).getD "",
                 instruction_or_question := some "Please execute the above script." } := by
  unfold turnBody
  rw [hf, doFastPath_some env s d h]
  rfl

theorem turnBody_normal_none1 (env : Env) (s : OState)
    (hf : takesFastPath env s = false)
    (h : asStruct (env.oracle s.oracleIdx) = none) :
    turnBody env s =
      ⟨.restartRound,
       { s with oracleIdx := s.oracleIdx + 1,
                events := s.events ++ [Event.oracleQuery QueryKind.assess5] },
       none⟩ := by
  unfold turnBody
  rw [hf, doNormalPath_none1 env s h]
  rfl

theorem turnBody_normal_none2 (env : Env) (s : OState) (d : SData)
    (hf : takesFastPath env s = false)
    (h1 : asStruct (env.oracle s.oracleIdx) = some d)
    (h3 : asStruct (env.oracle (s.oracleIdx + 1 + 1)) = none) :
    turnBody env s =
      ⟨.restartRound,
       { s with oracleIdx := s.oracleIdx + 1 + 1 + 1,
                events := s.events ++ [Event.oracleQuery QueryKind.assess5] ++
                  [Event.oracleQuery QueryKind.revisePlan] ++
                  broadcastEvs env.agents
                    ("New Updated Plan: \n" ++ asText (env.oracle (s.oracleIdx + 1))) [] [] ++
                  [Event.oracleQuery QueryKind.assess5] },
       none⟩ := by
  unfold turnBody
  rw [hf, doNormalPath_none2 env s d h1 h3]
  rfl

theorem turnBody_normal_some (env : Env) (s : OState) (d d2 : SData)
    (hf : takesFastPath env s = false)
    (h1 : asStruct (env.oracle s.oracleIdx) = some d)
    (h3 : asStruct (env.oracle (s.oracleIdx + 1 + 1)) = some d2) :
    turnBody env s =
      afterData env
        { s with plan := (keepBest d d2 s.plan (asText (env.oracle (s.oracleIdx + 1)))).2,
                 oracleIdx := s.oracleIdx + 1 + 1 + 1,
                 events := s.events ++ [Event.oracleQuery QueryKind.assess5] ++
                   [Event.oracleQuery QueryKind.revisePlan] ++
                   broadcastEvs env.agents
                     ("New Updated Plan: \n" ++ asText (env.oracle (s.oracleIdx + 1))) [] [] ++
                   [Event.oracleQuery QueryKind.assess5] }
        (keepBest d d2 s.plan (asText (env.oracle (s.oracleIdx + 1)))).1 := by
  unfold turnBody
  rw [hf, doNormalPath_some env s d d2 h1 h3]
  rfl


theorem runTurn_turns (env : Env) (s : OState) :
    (runTurn env s).s.total_turns = s.total_turns + 1 := by
  unfold runTurn turnBody
  split
  all_goals dsimp only
  · cases h0 : (doFastPath env { s with total_turns := s.total_turns + 1 }).1 <;> dsimp only
    · rw [doFastPath_2]
    · rw [afterData_turns, doFastPath_2]
  · cases h0 : (doNormalPath env { s with total_turns := s.total_turns + 1 }).1 <;> dsimp only
    · rw [doNormalPath_2_turns]
    · rw [afterData_turns, doNormalPath_2_turns]

theorem doFastPath_2_ts (env : Env) (s : OState) :
    (doFastPath env s).2.times_stalled = s.times_stalled := by rw [doFastPath_2]

theorem doFastPath_2_cps (env : Env) (s : OState) :
    (doFastPath env s).2.checkpoints = s.checkpoints := by rw [doFastPath_2]

theorem doFastPath_2_plan (env : Env) (s : OState) :
    (doFastPath env s).2.plan = s.plan := by rw [doFastPath_2]

theorem runTurn_ts (env : Env) (s : OState) :
    (runTurn env s).s.times_stalled = s.times_stalled ∨
      (runTurn env s).s.times_stalled = s.times_stalled + 1 := by
  unfold runTurn turnBody
  split
  all_goals dsimp only
  · cases h0 : (doFastPath env { s with total_turns := s.total_turns + 1 }).1 with
    | none =>
        dsimp only
        rw [doFastPath_2_ts]
        exact Or.inl rfl
    | some d =>
        dsimp only
        have h3 := afterData_ts env (doFastPath env { s with total_turns := s.total_turns + 1 }).2 d
        rw [doFastPath_2_ts] at h3
        exact h3
  · cases h0 : (doNormalPath env { s with total_turns := s.total_turns + 1 }).1 with
    | none =>
        dsimp only
        rw [doNormalPath_2_ts]
        exact Or.inl rfl
    | some d =>
        dsimp only
        have h3 := afterData_ts env (doNormalPath env { s with total_turns := s.total_turns + 1 }).2 d
        rw [doNormalPath_2_ts] at h3
        exact h3

theorem roundInit_turns (env : Env) (s : OState) :
    (roundInit env s).total_turns = s.total_turns := rfl

theorem roundInit_ts (env : Env) (s : OState) :
    (roundInit env s).times_stalled = s.times_stalled := rfl

theorem innerLoop_turns_le (env : Env) :
    ∀ (f : Nat) (s : OState), s.total_turns ≤ max_turns →
      ((innerLoop env f s).2).total_turns ≤ max_turns := by
  intro f
  induction f with
  | zero =>
      intro s h
      unfold innerLoop
      split <;> exact h
  | succ f ih =>
      intro s h
      unfold innerLoop
      split
      · rename_i hlt
        dsimp only
        have h1 := runTurn_turns env s
        rcases ho : (runTurn env s).out <;> dsimp only
        · exact ih _ (by omega)
        · omega
        · omega
        · omega
      · exact h

theorem innerLoop_turns_mono (env : Env) :
    ∀ (f : Nat) (s : OState), s.total_turns ≤ ((innerLoop env f s).2).total_turns := by
  intro f
  induction f with
  | zero =>
      intro s
      unfold innerLoop
      split <;> exact le_rfl
  | succ f ih =>
      intro s
      unfold innerLoop
      split
      · dsimp only
        have h1 := runTurn_turns env s
        rcases ho : (runTurn env s).out <;> dsimp only
        · have := ih (runTurn env s).s
          omega
        · omega
        · omega
        · omega
      · exact le_rfl

theorem innerLoop_turns_ge1 (env : Env) :
    ∀ (f : Nat) (s : OState), s.total_turns < max_turns → 1 ≤ f →
      s.total_turns + 1 ≤ ((innerLoop env f s).2).total_turns := by
  intro f
  cases f with
  | zero => intro s _ h; omega
  | succ f =>
      intro s hlt _
      unfold innerLoop
      rw [if_pos hlt]
      dsimp only
      have h1 := runTurn_turns env s
      rcases ho : (runTurn env s).out <;> dsimp only
      · have := innerLoop_turns_mono env f (runTurn env s).s
        omega
      · omega
      · omega
      · omega

theorem innerLoop_no_fuel (env : Env) :
    ∀ (f : Nat) (s : OState), max_turns ≤ s.total_turns + f →
      (innerLoop env f s).1 ≠ InnerOut.fuelOut := by
  intro f
  induction f with
  | zero =>
      intro s h
      unfold innerLoop
      rw [if_neg (by omega)]
      simp
  | succ f ih =>
      intro s h
      unfold innerLoop
      split
      · dsimp only
        have h1 := runTurn_turns env s
        rcases ho : (runTurn env s).out <;> dsimp only
        · exact ih _ (by omega)
        · simp
        · simp
        · simp
      · simp


theorem outerLoop_exhausted (env : Env) (f : Nat) (s : OState)
    (h : ¬ s.total_turns < max_turns) :
    outerLoop env f s = ⟨.ok true (some "TERMINATE"), s⟩ := by
  cases f <;> unfold outerLoop <;> rw [if_neg h]

theorem outerLoop_turns_le (env : Env) :
    ∀ (f : Nat) (s : OState), s.total_turns ≤ max_turns →
      ((outerLoop env f s).s).total_turns ≤ max_turns := by
  intro f
  induction f with
  | zero =>
      intro s h
      unfold outerLoop
      split <;> exact h
  | succ f ih =>
      intro s h
      unfold outerLoop
      split
      · rcases hi : innerLoop env max_turns (roundInit env s) with ⟨io, s2⟩
        have h2 : s2.total_turns ≤ max_turns := by
          have := innerLoop_turns_le env max_turns (roundInit env s)
            (by rw [roundInit_turns]; exact h)
          rw [hi] at this
          exact this
        cases io <;> dsimp only
        · exact ih s2 h2
        · exact h2
        · exact h2
        · exact h2
      · exact h

theorem outerLoop_no_fuel (env : Env) :
    ∀ (f : Nat) (s : OState), max_turns ≤ s.total_turns + f →
      (outerLoop env f s).result ≠ ROut.fuelOut := by
  intro f
  induction f with
  | zero =>
      intro s h
      unfold outerLoop
      rw [if_neg (by omega)]
      simp
  | succ f ih =>
      intro s h
      unfold outerLoop
      split
      · rename_i hlt
        rcases hi : innerLoop env max_turns (roundInit env s) with ⟨io, s2⟩
        have hge : s.total_turns + 1 ≤ s2.total_turns := by
          have := innerLoop_turns_ge1 env max_turns (roundInit env s)
            (by rw [roundInit_turns]; exact hlt) (by norm_num [max_turns])
          rw [hi] at this
          rw [roundInit_turns] at this
          exact this
        have hnf : io ≠ InnerOut.fuelOut := by
          have := innerLoop_no_fuel env max_turns (roundInit env s)
            (by rw [roundInit_turns]; omega)
          rw [hi] at this
          exact this
        cases io <;> dsimp only
        · exact ih s2 (by omega)
        · simp
        · simp
        · simp_all
      · simp

theorem runChat_turns_le (env : Env) : (runChat env).s.total_turns ≤ max_turns := by
  unfold runChat askOracle
  split
  · dsimp only
    exact outerLoop_turns_le env 31 _ (by show (0:Nat) ≤ max_turns; decide)
  · dsimp only
    decide

theorem runChat_no_fuel (env : Env) : (runChat env).result ≠ ROut.fuelOut := by
  unfold runChat askOracle
  split
  · dsimp only
    exact outerLoop_no_fuel env 31 _ (by show max_turns ≤ 0 + 31; decide)
  · dsimp only
    simp


theorem asStruct_inv (r : OResp) (d : SData) (h : asStruct r = some d) :
    r = OResp.parsed d := by
  cases r <;> simp_all [asStruct]

theorem exists_app2 {α : Type} (a b c : List α) : ∃ l, (a ++ b) ++ c = a ++ l :=
  ⟨b ++ c, by simp⟩

theorem exists_app3 {α : Type} (a b c d : List α) : ∃ l, ((a ++ b) ++ c) ++ d = a ++ l :=
  ⟨b ++ c ++ d, by simp⟩

theorem exists_app4 {α : Type} (a b c d e : List α) :
    ∃ l, (((a ++ b) ++ c) ++ d) ++ e = a ++ l :=
  ⟨b ++ c ++ d ++ e, by simp⟩

theorem afterData_events_ext (env : Env) (s : OState) (d : SData) :
    ∃ l, (afterData env s d).s.events = s.events ++ l := by
  unfold afterData delegate askOracle addEvent addEvents
  dsimp only
  repeat' split
  all_goals
    first
    | exact ⟨_, rfl⟩
    | exact ⟨[], (List.append_nil _).symm⟩
    | exact exists_app2 _ _ _
    | exact exists_app3 _ _ _ _
    | exact exists_app4 _ _ _ _ _

theorem afterData_plan_noStag (env : Env) (s : OState) (d : SData)
    (hst : stagnationHit (s.checkpoints ++
      [Checkpoint.mk s.plan d.current_evaluation d.instruction_or_question]) = false) :
    (afterData env s d).s.plan = s.plan := by
  by_cases hsat : d.is_request_satisfied = true
  · rw [afterData_sat env s d hsat]
  · rw [afterData_noStag env s d (by simpa using hsat) hst, delegate_plan]

/-!
Claim theorems.
-/

/-- C1: code-bug evidence.  The claim says the educated-guess escalation
runs only once times_stalled has reached 2, and that the first stagnation
(times_stalled becoming 1) merely increments the counter and lets the turn
continue with broadcast and delegation.  In the source, the guard
`if times_stalled >= 2` (line 397) covers only the assignment of
`educated_guess_promt`, while lines 414-474 execute on every detected
stagnation; so the very first stagnation reads the unbound local and the
run dies with an UnboundLocalError instead of continuing.  This theorem
evaluates the embedded code on a concrete flat-score run: the crash
happens at turn 3 with times_stalled = 1. -/
theorem C1_first_stagnation_crashes :
    (runChat envFlat).result = ROut.crash "UnboundLocalError: educated_guess_promt" ∧
    (runChat envFlat).s.times_stalled = 1 ∧
    (runChat envFlat).s.total_turns = 3 ∧
    (runChat envFlat).s.checkpoints.map (fun cp => cp.evaluation) = [50, 50, 50] := by
  decide

/-- C2: counterexample to the claim as stated.  A run whose structured
responses all parse successfully, one of them carrying evaluation 150,
completes normally and records a checkpoint with score 150, outside
[1,100]: the code stores the oracle-reported score verbatim without any
validation. -/
theorem C2_claim_counterexample :
    (runChat env150).result = ROut.ok true (some "TERMINATE") ∧
    (runChat env150).s.checkpoints.map (fun cp => cp.evaluation) = [150] ∧
    ¬ scoreOK 150 := by
  refine ⟨by decide, by decide, ?_⟩
  intro h
  exact absurd h.2 (by decide)

/-- C2 (amended): checkpoints store the parsed oracle score verbatim, so
if every successfully parsed structured response carries a score in
[1,100], then every checkpoint recorded by a turn carries a score in
[1,100]; the range is inherited from the oracle, not enforced by the
code. -/
theorem C2_checkpoint_scores (env : Env) (s : OState)
    (hor : oracleScoresOK env) (hcp : cpsInRange s.checkpoints) :
    cpsInRange (runTurn env s).s.checkpoints := by
  have hset : ∀ (s1 : OState) (d : SData), cpsInRange s1.checkpoints →
      scoreOK d.current_evaluation → cpsInRange (afterData env s1 d).s.checkpoints := by
    intro s1 d h1 h2
    rcases afterData_cps env s1 d with hc | hc
    · rw [hc]
      intro cp hm
      rcases List.mem_append.mp hm with hm | hm
      · exact h1 cp hm
      · rw [List.mem_singleton.mp hm]
        exact h2
    · rw [hc]
      intro cp hm
      exact absurd hm (List.not_mem_nil cp)
  unfold runTurn turnBody
  split
  all_goals dsimp only
  · cases h0 : (doFastPath env { s with total_turns := s.total_turns + 1 }).1 with
    | none =>
        dsimp only
        rw [doFastPath_2_cps]
        exact hcp
    | some d =>
        dsimp only
        rcases doFastPath_1_eval env _ d h0 with ⟨d0, hasd, hce⟩
        apply hset
        · rw [doFastPath_2_cps]
          exact hcp
        · rw [hce]
          exact hor _ d0 (asStruct_inv _ _ hasd)
  · cases h0 : (doNormalPath env { s with total_turns := s.total_turns + 1 }).1 with
    | none =>
        dsimp only
        rw [doNormalPath_2_cps]
        exact hcp
    | some d =>
        dsimp only
        rcases doNormalPath_1_eval env _ d h0 with ⟨n, d0, hasd, hce⟩
        apply hset
        · rw [doNormalPath_2_cps]
          exact hcp
        · rw [hce]
          exact hor _ d0 (asStruct_inv _ _ hasd)

/-- C2 witness: the amended invariant instantiated on a concrete oracle
whose every response carries score 50, starting from the initial state. -/
theorem C2_checkpoint_scores_witness :
    cpsInRange (runTurn envW initState).s.checkpoints :=
  C2_checkpoint_scores envW initState
    (fun n d h => by
      have h2 : d50 = d := by injection h
      rw [← h2]
      exact ⟨by decide, by decide⟩)
    (fun cp hm => absurd hm (by intro hmm; simp [initState] at hmm))

/-- C3 (amended): for the fast-path assessment, the normal-path
assessment and the second candidate assessment, a parse failure abandons
only the current turn: the inner loop breaks (restartRound) and
checkpoints, facts, plan, both stall counters and the context log are all
unchanged.  For the educated-guess query, a parse failure likewise breaks
the round and leaves facts and plan unchanged, but the checkpoint for the
turn has already been recorded before that query is issued, so the
checkpoint list has grown by one. -/
theorem C3_parse_failure_aborts :
    (∀ (env : Env) (s : OState), takesFastPath env s = true →
       asStruct (env.oracle s.oracleIdx) = none →
       (runTurn env s).out = TOut.restartRound ∧
       (runTurn env s).s.checkpoints = s.checkpoints ∧
       (runTurn env s).s.facts = s.facts ∧
       (runTurn env s).s.plan = s.plan ∧
       (runTurn env s).s.times_stalled = s.times_stalled ∧
       (runTurn env s).s.stalled_count = s.stalled_count ∧
       (runTurn env s).s.orchestrated_messages = s.orchestrated_messages) ∧
    (∀ (env : Env) (s : OState), takesFastPath env s = false →
       asStruct (env.oracle s.oracleIdx) = none →
       (runTurn env s).out = TOut.restartRound ∧
       (runTurn env s).s.checkpoints = s.checkpoints ∧
       (runTurn env s).s.facts = s.facts ∧
       (runTurn env s).s.plan = s.plan ∧
       (runTurn env s).s.times_stalled = s.times_stalled ∧
       (runTurn env s).s.stalled_count = s.stalled_count ∧
       (runTurn env s).s.orchestrated_messages = s.orchestrated_messages) ∧
    (∀ (env : Env) (s : OState) (d : SData), takesFastPath env s = false →
       asStruct (env.oracle s.oracleIdx) = some d →
       asStruct (env.oracle (s.oracleIdx + 1 + 1)) = none →
       (runTurn env s).out = TOut.restartRound ∧
       (runTurn env s).s.checkpoints = s.checkpoints ∧
       (runTurn env s).s.facts = s.facts ∧
       (runTurn env s).s.plan = s.plan ∧
       (runTurn env s).s.times_stalled = s.times_stalled ∧
       (runTurn env s).s.stalled_count = s.stalled_count ∧
       (runTurn env s).s.orchestrated_messages = s.orchestrated_messages) ∧
    (∀ (env : Env) (s : OState) (d : SData), d.is_request_satisfied = false →
       stagnationHit (s.checkpoints ++
         [Checkpoint.mk s.plan d.current_evaluation d.instruction_or_question]) = true →
       1 ≤ s.times_stalled →
       asGuess (env.oracle s.oracleIdx) = none →
       (afterData env s d).out = TOut.restartRound ∧
       (afterData env s d).s.checkpoints = s.checkpoints ++
         [Checkpoint.mk s.plan d.current_evaluation d.instruction_or_question] ∧
       (afterData env s d).s.facts = s.facts ∧
       (afterData env s d).s.plan = s.plan) := by
  refine ⟨?_, ?_, ?_, ?_⟩
  · intro env s hf h
    have e := turnBody_fast_none env { s with total_turns := s.total_turns + 1 } hf h
    unfold runTurn
    rw [e]
    exact ⟨rfl, rfl, rfl, rfl, rfl, rfl, rfl⟩
  · intro env s hf h
    have e := turnBody_normal_none1 env { s with total_turns := s.total_turns + 1 } hf h
    unfold runTurn
    rw [e]
    exact ⟨rfl, rfl, rfl, rfl, rfl, rfl, rfl⟩
  · intro env s d hf h1 h3
    have e := turnBody_normal_none2 env { s with total_turns := s.total_turns + 1 } d hf h1 h3
    unfold runTurn
    rw [e]
    exact ⟨rfl, rfl, rfl, rfl, rfl, rfl, rfl⟩
  · intro env s d hsat hst hts hg
    rw [afterData_guessFail env s d hsat hst hts hg]
    exact ⟨rfl, rfl, rfl, rfl⟩

/-- C3: counterexample to the claim as stated.  A turn whose
educated-guess query response fails to parse does abandon the round, but a
checkpoint for that attempt has already been recorded: the checkpoint list
grows from 2 to 3 entries, contradicting that no checkpoint is recorded
for the attempt. -/
theorem C3_claim_counterexample :
    (runTurn envG sG).out = TOut.restartRound ∧
    sG.checkpoints.length = 2 ∧
    (runTurn envG sG).s.checkpoints.length = 3 ∧
    (runTurn envG sG).s.facts = sG.facts ∧
    (runTurn envG sG).s.plan = sG.plan := by
  decide

/-- C3 witness: each part of the amended statement instantiated on a
concrete parse-failing oracle. -/
theorem C3_parse_failure_aborts_witness :
    ((runTurn envRF initState).out = TOut.restartRound ∧
       (runTurn envRF initState).s.checkpoints = initState.checkpoints ∧
       (runTurn envRF initState).s.facts = initState.facts ∧
       (runTurn envRF initState).s.plan = initState.plan ∧
       (runTurn envRF initState).s.times_stalled = initState.times_stalled ∧
       (runTurn envRF initState).s.stalled_count = initState.stalled_count ∧
       (runTurn envRF initState).s.orchestrated_messages = initState.orchestrated_messages) ∧
    ((runTurn envFF initState).out = TOut.restartRound ∧
       (runTurn envFF initState).s.checkpoints = initState.checkpoints ∧
       (runTurn envFF initState).s.facts = initState.facts ∧
       (runTurn envFF initState).s.plan = initState.plan ∧
       (runTurn envFF initState).s.times_stalled = initState.times_stalled ∧
       (runTurn envFF initState).s.stalled_count = initState.stalled_count ∧
       (runTurn envFF initState).s.orchestrated_messages = initState.orchestrated_messages) ∧
    ((runTurn env2 initState).out = TOut.restartRound ∧
       (runTurn env2 initState).s.checkpoints = initState.checkpoints ∧
       (runTurn env2 initState).s.facts = initState.facts ∧
       (runTurn env2 initState).s.plan = initState.plan ∧
       (runTurn env2 initState).s.times_stalled = initState.times_stalled ∧
       (runTurn env2 initState).s.stalled_count = initState.stalled_count ∧
       (runTurn env2 initState).s.orchestrated_messages = initState.orchestrated_messages) ∧
    ((afterData envFF sG dFlat).out = TOut.restartRound ∧
       (afterData envFF sG dFlat).s.checkpoints = sG.checkpoints ++
         [Checkpoint.mk sG.plan dFlat.current_evaluation dFlat.instruction_or_question] ∧
       (afterData envFF sG dFlat).s.facts = sG.facts ∧
       (afterData envFF sG dFlat).s.plan = sG.plan) :=
  ⟨C3_parse_failure_aborts.1 envRF initState (by decide) (by decide),
   C3_parse_failure_aborts.2.1 envFF initState (by decide) (by decide),
   C3_parse_failure_aborts.2.2.1 env2 initState dFlat (by decide) (by decide) (by decide),
   C3_parse_failure_aborts.2.2.2 envFF sG dFlat (by decide) (by decide) (by decide) (by decide)⟩

/-- C10: when the oracle client is absent, run_chat returns (False, None)
immediately, and the state it reports is the initial state: no oracle
query events, no sends, no checkpoints and no context-log messages
exist. -/
theorem C10_no_client (env : Env) (h : env.hasClient = false) :
    runChat env = ⟨ROut.ok false none, initState⟩ ∧
    initState.events = [] ∧
    initState.checkpoints = [] ∧
    initState.orchestrated_messages = [] := by
  refine ⟨?_, rfl, rfl, rfl⟩
  unfold runChat
  rw [h]
  rfl

/-- C10 witness: the no-client return on a concrete environment. -/
theorem C10_no_client_witness :
    runChat envNoClient = ⟨ROut.ok false none, initState⟩ :=
  (C10_no_client envNoClient rfl).1

/-- C4: when the previous message contains a python/sh code block and an
execution-capable worker exists, the turn takes the fast path: whatever
record the oracle returns, the data used for the rest of the turn carries
next_speaker equal to the first execution-capable worker and the fixed
instruction, the query issued is the three-field assessment, and no
five-field assessment query is issued anywhere in the turn. -/
theorem C4_fast_path_forced (env : Env) (s : OState) (d : SData)
    (hf : takesFastPath env s = true)
    (h : asStruct (env.oracle s.oracleIdx) = some d) :
    (runTurn env s).saved =
      some { d with next_speaker := ((execAgents env).head?.map AgentD.name).getD "",
                    instruction_or_question := some "Please execute the above script." } ∧
    Event.oracleQuery QueryKind.assess3 ∈ (runTurn env s).s.events ∧
    queryWithin (runTurn env s).s.events s.events
      [QueryKind.assess3, QueryKind.educatedGuess, QueryKind.rewriteFacts,
       QueryKind.fullReplan] := by
  have e := turnBody_fast_some env { s with total_turns := s.total_turns + 1 } d hf h
  unfold runTurn
  rw [e]
  refine ⟨afterData_saved _ _ _, ?_, ?_⟩
  · rcases afterData_events_ext env _
      { d with next_speaker := ((execAgents env).head?.map AgentD.name).getD "",
               instruction_or_question := some "Please execute the above script." } with ⟨l, hl⟩
    rw [hl]
    apply List.mem_append_left
    show Event.oracleQuery QueryKind.assess3 ∈
      s.events ++ [Event.oracleQuery QueryKind.assess3]
    simp
  · intro k hk
    rcases afterData_queries env _ _ k hk with hin | hin
    · have hin2 : Event.oracleQuery k ∈
          s.events ++ [Event.oracleQuery QueryKind.assess3] := hin
      rcases List.mem_append.mp hin2 with h2 | h2
      · exact Or.inl h2
      · have h3 := List.mem_singleton.mp h2
        injection h3 with h3
        rw [h3]
        exact Or.inr (by simp)
    · refine Or.inr ?_
      rcases hin with h2 | h2 | h2 <;> rw [h2] <;> simp

/-- C4 witness: the fast path on a concrete one-runner team. -/
theorem C4_fast_path_forced_witness :
    (runTurn envR initState).saved =
      some { dFlat with
             next_speaker := ((execAgents envR).head?.map AgentD.name).getD "",
             instruction_or_question := some "Please execute the above script." } ∧
    Event.oracleQuery QueryKind.assess3 ∈ (runTurn envR initState).s.events ∧
    queryWithin (runTurn envR initState).s.events initState.events
      [QueryKind.assess3, QueryKind.educatedGuess, QueryKind.rewriteFacts,
       QueryKind.fullReplan] :=
  C4_fast_path_forced envR initState dFlat (by decide) (by decide)

/-- C5: of the two candidate structured responses the one with the higher
current_evaluation is kept (the saved record scores max of the two), the
Plan is replaced by the revised candidate exactly when the second
response scores strictly higher, and the resulting Plan text equals one of
the two candidate texts, never a blend. -/
theorem C5_competing_candidates (env : Env) (s : OState) (d d2 : SData)
    (hf : takesFastPath env s = false)
    (h1 : asStruct (env.oracle s.oracleIdx) = some d)
    (h3 : asStruct (env.oracle (s.oracleIdx + 1 + 1)) = some d2)
    (hst : stagnationHit (s.checkpoints ++
      [Checkpoint.mk (keepBest d d2 s.plan (asText (env.oracle (s.oracleIdx + 1)))).2
        (keepBest d d2 s.plan (asText (env.oracle (s.oracleIdx + 1)))).1.current_evaluation
        (keepBest d d2 s.plan
          (asText (env.oracle (s.oracleIdx + 1)))).1.instruction_or_question]) = false) :
    (runTurn env s).saved =
      some (keepBest d d2 s.plan (asText (env.oracle (s.oracleIdx + 1)))).1 ∧
    (runTurn env s).s.plan =
      (keepBest d d2 s.plan (asText (env.oracle (s.oracleIdx + 1)))).2 ∧
    ((runTurn env s).s.plan = asText (env.oracle (s.oracleIdx + 1)) ∨
      (runTurn env s).s.plan = s.plan) ∧
    (runTurn env s).s.plan =
      (if d2.current_evaluation > d.current_evaluation
       then asText (env.oracle (s.oracleIdx + 1)) else s.plan) ∧
    (keepBest d d2 s.plan (asText (env.oracle (s.oracleIdx + 1)))).1.current_evaluation =
      max d.current_evaluation d2.current_evaluation := by
  have e := turnBody_normal_some env { s with total_turns := s.total_turns + 1 } d d2 hf h1 h3
  unfold runTurn
  rw [e]
  have hplan := afterData_plan_noStag env
    { { s with total_turns := s.total_turns + 1 } with
      plan := (keepBest d d2 s.plan (asText (env.oracle (s.oracleIdx + 1)))).2,
      oracleIdx := s.oracleIdx + 1 + 1 + 1,
      events := s.events ++ [Event.oracleQuery QueryKind.assess5] ++
        [Event.oracleQuery QueryKind.revisePlan] ++
        broadcastEvs env.agents
          ("New Updated Plan: \n" ++ asText (env.oracle (s.oracleIdx + 1))) [] [] ++
        [Event.oracleQuery QueryKind.assess5] }
    (keepBest d d2 s.plan (asText (env.oracle (s.oracleIdx + 1)))).1 hst
  refine ⟨afterData_saved _ _ _, hplan, ?_, ?_, ?_⟩
  · rw [hplan]
    unfold keepBest
    split
    · exact Or.inl rfl
    · exact Or.inr rfl
  · rw [hplan]
    unfold keepBest
    split <;> rfl
  · unfold keepBest
    split
    · rename_i hc
      show d2.current_evaluation = max d.current_evaluation d2.current_evaluation
      exact (max_eq_right (le_of_lt hc)).symm
    · rename_i hc
      show d.current_evaluation = max d.current_evaluation d2.current_evaluation
      exact (max_eq_left (by omega)).symm

/-- C5 witness: a concrete pair of candidates with scores 40 and 60; the
second wins and its plan replaces the first. -/
theorem C5_competing_candidates_witness :
    (runTurn envKB initState).saved =
      some (keepBest dA dB initState.plan (asText (envKB.oracle (initState.oracleIdx + 1)))).1 ∧
    (runTurn envKB initState).s.plan =
      (keepBest dA dB initState.plan (asText (envKB.oracle (initState.oracleIdx + 1)))).2 ∧
    ((runTurn envKB initState).s.plan = asText (envKB.oracle (initState.oracleIdx + 1)) ∨
      (runTurn envKB initState).s.plan = initState.plan) ∧
    (runTurn envKB initState).s.plan =
      (if dB.current_evaluation > dA.current_evaluation
       then asText (envKB.oracle (initState.oracleIdx + 1)) else initState.plan) ∧
    (keepBest dA dB initState.plan
        (asText (envKB.oracle (initState.oracleIdx + 1)))).1.current_evaluation =
      max dA.current_evaluation dB.current_evaluation :=
  C5_competing_candidates envKB initState dA dB (by decide) (by decide) (by decide) (by decide)

/-- C6: immediately after a full re-plan triggered by stagnation
escalation the checkpoint log is exactly empty and times_stalled carries
exactly the one increment done by trend detection; moreover a turn changes
times_stalled only by zero or one increment and round initialization never
touches it, so it is never reset during a run. -/
theorem C6_replan_frame :
    (∀ (env : Env) (s : OState) (d : SData), d.is_request_satisfied = false →
       stagnationHit (s.checkpoints ++
         [Checkpoint.mk s.plan d.current_evaluation d.instruction_or_question]) = true →
       1 ≤ s.times_stalled →
       asGuess (env.oracle s.oracleIdx) = some false →
       (afterData env s d).out = TOut.restartRound ∧
       (afterData env s d).s.checkpoints = [] ∧
       (afterData env s d).s.times_stalled = s.times_stalled + 1) ∧
    (∀ (env : Env) (s : OState),
       (runTurn env s).s.times_stalled = s.times_stalled ∨
       (runTurn env s).s.times_stalled = s.times_stalled + 1) ∧
    (∀ (env : Env) (s : OState), (roundInit env s).times_stalled = s.times_stalled) := by
  refine ⟨?_, runTurn_ts, fun env s => rfl⟩
  intro env s d hsat hst hts hg
  rw [afterData_replan env s d hsat hst hts hg]
  exact ⟨rfl, rfl, rfl⟩

/-- C6 witness: the re-plan frame conditions instantiated on a concrete
stalled state, plus the turn-level and round-level parts on concrete
inputs. -/
theorem C6_replan_frame_witness :
    ((afterData envGF sG dFlat).out = TOut.restartRound ∧
       (afterData envGF sG dFlat).s.checkpoints = [] ∧
       (afterData envGF sG dFlat).s.times_stalled = sG.times_stalled + 1) ∧
    ((runTurn envFlat initState).s.times_stalled = initState.times_stalled ∨
       (runTurn envFlat initState).s.times_stalled = initState.times_stalled + 1) ∧
    (roundInit envFlat initState).times_stalled = initState.times_stalled :=
  ⟨C6_replan_frame.1 envGF sG dFlat (by decide) (by decide) (by decide) (by decide),
   C6_replan_frame.2.1 envFlat initState,
   C6_replan_frame.2.2 envFlat initState⟩

/-- C7: total_turns never exceeds the configured cap of 30: the final
state of every run satisfies the bound, and every turn increments the
counter exactly once. -/
theorem C7_turn_budget :
    (∀ env : Env, (runChat env).s.total_turns ≤ max_turns) ∧
    (∀ (env : Env) (s : OState), (runTurn env s).s.total_turns = s.total_turns + 1) :=
  ⟨runChat_turns_le, runTurn_turns⟩

/-- C8: exhausting the turn budget returns exactly the same successful
result, True with the fixed sentinel TERMINATE, as the satisfaction
return; a concrete 30-turn never-satisfied run indeed ends with ok true
TERMINATE. -/
theorem C8_exhaustion_reports_success :
    (∀ (env : Env) (f : Nat) (s : OState), ¬ s.total_turns < max_turns →
        outerLoop env f s = ⟨ROut.ok true (some "TERMINATE"), s⟩) ∧
    (∀ (env : Env) (s : OState) (d : SData), d.is_request_satisfied = true →
        (afterData env s d).out = TOut.term true (some "TERMINATE")) ∧
    (runChat envInc).result = ROut.ok true (some "TERMINATE") ∧
    (runChat envInc).s.total_turns = max_turns := by
  refine ⟨outerLoop_exhausted, ?_, by decide, by decide⟩
  intro env s d h
  rw [afterData_sat env s d h]

/-- C8 witness: the exhaustion return instantiated at a state whose
budget is spent, and the satisfaction return on a concrete satisfied
record. -/
theorem C8_exhaustion_reports_success_witness :
    (¬ sBudget.total_turns < max_turns ∧
       outerLoop envFlat 5 sBudget = ⟨ROut.ok true (some "TERMINATE"), sBudget⟩) ∧
    (dSat.is_request_satisfied = true ∧
       (afterData envFlat initState dSat).out = TOut.term true (some "TERMINATE")) :=
  ⟨⟨by decide, C8_exhaustion_reports_success.1 envFlat 5 sBudget (by decide)⟩,
   ⟨rfl, C8_exhaustion_reports_success.2.1 envFlat initState dSat rfl⟩⟩

/-- C9: when the parsed next_speaker matches no team member, the turn
still broadcasts the instruction, every delivery of that broadcast is
silent, no worker reply is requested and none is appended (the context log
grows by exactly the instruction message), and the loop continues without
error. -/
theorem C9_unknown_speaker (env : Env) (s : OState) (d : SData)
    (hsat : d.is_request_satisfied = false)
    (hst : stagnationHit (s.checkpoints ++
      [Checkpoint.mk s.plan d.current_evaluation d.instruction_or_question]) = false)
    (hns : d.next_speaker ∉ env.agents.map AgentD.name) :
    (afterData env s d).out = TOut.cont ∧
    (afterData env s d).s.events = s.events ++
      broadcastEvs env.agents (d.instruction_or_question.getD "") [d.next_speaker] [] ∧
    noVisibleSend
      (broadcastEvs env.agents (d.instruction_or_question.getD "") [d.next_speaker] []) ∧
    (afterData env s d).s.orchestrated_messages = s.orchestrated_messages ++
      [Msg.mk "assistant" (d.instruction_or_question.getD "") env.selfName] := by
  have hfind : env.agents.find? (fun a => a.name == d.next_speaker) = none := by
    apply List.find?_eq_none.mpr
    intro a ha
    simp only [beq_iff_eq]
    intro hh
    exact hns (List.mem_map.mpr ⟨a, ha, hh⟩)
  rw [afterData_noStag env s d hsat hst, delegate_not_found env _ _ hfind]
  refine ⟨rfl, rfl, ?_, rfl⟩
  intro dest c hmem
  rcases broadcastEvs_mem _ _ _ _ _ hmem with ⟨a, ha, he⟩
  injection he with hdest hvis hc
  have hmm : a.name = d.next_speaker := by simpa using hvis.symm
  exact hns (List.mem_map.mpr ⟨a, ha, hmm⟩)

/-- C9 witness: a concrete record naming the absent speaker Ghost on a
one-member team. -/
theorem C9_unknown_speaker_witness :
    (afterData envFlat initState dGhost).out = TOut.cont ∧
    (afterData envFlat initState dGhost).s.events = initState.events ++
      broadcastEvs envFlat.agents (dGhost.instruction_or_question.getD "")
        [dGhost.next_speaker] [] ∧
    noVisibleSend (broadcastEvs envFlat.agents (dGhost.instruction_or_question.getD "")
      [dGhost.next_speaker] []) ∧
    (afterData envFlat initState dGhost).s.orchestrated_messages =
      initState.orchestrated_messages ++
        [Msg.mk "assistant" (dGhost.instruction_or_question.getD "") envFlat.selfName] :=
  C9_unknown_speaker envFlat initState dGhost (by decide) (by decide) (by decide)

end Orch
